import Mathlib

/-!
Shallow embedding of the fleet-telemetry repository.

Agent side (`src/Agent/Agent.py`): the IP-resolution fallback chain
(`get_real_ip`, lines 26-68), the pure tail of the process sampler
(`collect_system_info`, lines 96-108: sort by CPU percent and keep ten),
and the retrying transport (`send_to_api`, lines 158-176).

Server side (`src/Api/Api.py`): the `/api/stats` aggregation and alerting
endpoint (`get_stats`, lines 669-850).

Modelling conventions.
* Machine floats of the source are modelled as rationals (`ℚ`).
* ISO-8601 time strings are modelled by the instant (in seconds) they
  denote; for equal-format ISO strings the source's lexicographic string
  order coincides with the order of the denoted instants, so the sort
  `sorted(data, key=lambda x: x['timestamp'])` is modelled as a sort on
  the rational field.
* Python `dict.get` with optional keys is modelled with explicit field
  types recording whether a key is absent, null, or has a value, wherever
  the distinction is observable in the source.
* Statements that can raise an uncaught exception (the `/api/stats` body
  raises on an unparseable `received_at` of the last record, on a record
  whose `cpu` key is missing, and on a `frequency` key that is present
  but null) are modelled in the `Except Unit` monad.
-/

namespace SysMon

/-! ### `Agent/Agent.py`, `send_to_api` (lines 158-176) -/

/-- Outcome of one HTTP POST attempt: a transport exception, or a response
carrying the given status code. -/
inductive Outcome
  | exc
  | status (code : ℕ)
deriving DecidableEq

/-- The source treats an attempt as failed unless
`response.status_code == 200` (line 163). -/
def attemptFails : Outcome → Bool
  | .status c => decide (c ≠ 200)
  | .exc => true

/-- A response with a 2xx status code (the success notion of the spec). -/
def is2xx : Outcome → Bool
  | .status c => decide (200 ≤ c ∧ c < 300)
  | .exc => false

/-- The retry loop of `send_to_api` (lines 160-174): `outs` lists the
outcomes of the attempts still to be made and `i` is the 0-based index of
the next attempt.  Returns (success, attempts performed, seconds slept).
A failed attempt sleeps `backoff * 2 ^ i` only when attempts remain
(`if attempt < retries - 1`, line 173). -/
def sendLoop (backoff : ℚ) : List Outcome → ℕ → Bool × ℕ × ℚ
  | [], _ => (false, 0, 0)
  | o :: rest, i =>
    if attemptFails o then
      let sleep : ℚ := if rest.isEmpty then 0 else backoff * 2 ^ i
      let r := sendLoop backoff rest (i + 1)
      (r.1, r.2.1 + 1, sleep + r.2.2)
    else
      (true, 1, 0)

/-- `send_to_api(data, api_url, retries, backoff)` with the network
modelled by `out i` = outcome of attempt `i`. -/
def send_to_api (out : ℕ → Outcome) (retries : ℕ) (backoff : ℚ) :
    Bool × ℕ × ℚ :=
  sendLoop backoff ((List.range retries).map out) 0

/-! ### `Agent/Agent.py`, `get_real_ip` (lines 26-68) -/

/-- Codepoint-wise prefix test on character lists. -/
def listStarts : List Char → List Char → Bool
  | _, [] => true
  | [], _ :: _ => false
  | c :: cs, p :: ps => decide (c = p) && listStarts cs ps

/-- Python `s.startswith(pre)` (string prefix on codepoints). -/
def strStarts (s pre : String) : Bool := listStarts s.data pre.data

/-- One address of a network interface; `isInet` models
`addr.family == socket.AF_INET` (line 48). -/
structure IfAddr where
  isInet : Bool
  address : String
deriving DecidableEq

/-- A named network interface with its address list
(one entry of `psutil.net_if_addrs()`). -/
structure Iface where
  name : String
  addrs : List IfAddr
deriving DecidableEq

/-- `interface.startswith(('lo', 'docker', 'br-', 'veth'))` (line 45). -/
def skippedIface (n : String) : Bool :=
  strStarts n "lo" || strStarts n "docker" ||
    strStarts n "br-" || strStarts n "veth"

/-- `ip.startswith(('127.', '169.254.'))` (line 51). -/
def rejectedAddr (ip : String) : Bool :=
  strStarts ip "127." || strStarts ip "169.254."

/-- Inner loop of method 2 (lines 47-53): first AF_INET address that is
neither loopback nor link-local; a rejected address does not stop the
scan of the remaining addresses. -/
def findIfaceAddr : List IfAddr → Option String
  | [] => none
  | a :: rest =>
    if a.isInet && !rejectedAddr a.address then some a.address
    else findIfaceAddr rest

/-- Outer loop of method 2 (lines 43-53): skip loopback/virtual
interfaces by name, return the first accepted address. -/
def method2Pick : List Iface → Option String
  | [] => none
  | i :: rest =>
    if skippedIface i.name then method2Pick rest
    else
      match findIfaceAddr i.addrs with
      | some ip => some ip
      | none => method2Pick rest

/-- Method 3 (lines 57-64): the hostname-resolved address is accepted
only if it does not start with `127.`; otherwise control falls through
to the fallback. -/
def method3Acc : Option String → Option String
  | some ip => if strStarts ip "127." then none else some ip
  | none => none

/-- `get_real_ip` (lines 26-68).  `m1` is the address observed by the
socket trick (`none` = the attempt raised), `m2` the interface table
(`none` = `psutil.net_if_addrs()` raised), `m3` the hostname-resolved
address (`none` = resolution raised).  Method 1's result is returned
without any filtering (lines 34-36). -/
def get_real_ip (m1 : Option String) (m2 : Option (List Iface))
    (m3 : Option String) : String :=
  match m1 with
  | some ip => ip
  | none =>
    match m2.bind method2Pick with
    | some ip => ip
    | none =>
      match method3Acc m3 with
      | some ip => ip
      | none => "127.0.0.1"

/-! ### `Agent/Agent.py`, `collect_system_info` process list (lines 96-108) -/

/-- One entry of the per-process `pinfo` dictionary built at lines 97-103;
`none` models an absent key (the sort key at line 108 defaults it to 0). -/
structure PInfo where
  pid : ℤ
  name : String
  cpu_percent : Option ℚ
  memory_percent : Option ℚ
  status : Option String
deriving DecidableEq

/-- Sort key of line 108: `p.get('cpu_percent', 0)`. -/
def procKey (p : PInfo) : ℚ := p.cpu_percent.getD 0

/-- Line 108: `sorted(process_list, key=..., reverse=True)[:10]` — sort
descending by CPU percent (Python's `sorted` with `reverse=True` is a
stable descending sort) and keep the first ten. -/
def collect_processes (pl : List PInfo) : List PInfo :=
  (List.insertionSort (fun a b => procKey b ≤ procKey a) pl).take 10

/-! ### `Api/Api.py` stored-record shapes -/

/-- Value of the `agent_id` key of a stored record: key absent, present
`null`, or a string.  `item.get('agent_id', default)` yields the default
only for `absent`; `null` and the empty string are falsy. -/
inductive StrField
  | absent
  | null
  | val (s : String)
deriving DecidableEq

/-- A time-string-valued key.  `missing` = key absent; `bad` = present
but `datetime.fromisoformat` raises on it (unparseable string, or a
non-string value such as null); `iso t` = parses to the instant `t`
(seconds since the epoch). -/
inductive TimeStr
  | missing
  | bad
  | iso (t : ℚ)
deriving DecidableEq

/-- Value of the `frequency` key inside the stored `cpu` dictionary.
`absent`: no key, so `.get('frequency', {})` yields `{}` and the
current frequency defaults to 0.  `null`: the agent stored
`'frequency': None`, and `.get('current', 0)` on `None` raises
`AttributeError`.  `dict c`: a frequency dictionary whose `current` key
is `c` (`none` = key absent, defaulting to 0). -/
inductive FreqField
  | absent
  | null
  | dict (current : Option ℚ)
deriving DecidableEq

/-- Value of the `cpu` key of a stored record.  `missing`: key absent or
`null` — falsy for `item.get('cpu')`, and `item['cpu'].get(...)` raises.
`emptyDict`: `{}` — falsy, but `.get('frequency', {})` works and yields 0.
`dict f`: a non-empty cpu dictionary (truthy) whose `frequency` key is
`f`. -/
inductive CpuField
  | missing
  | emptyDict
  | dict (frequency : FreqField)
deriving DecidableEq

/-- One entry of a stored record's `processes` list; `none` models an
absent key, defaulted at lines 763-766. -/
structure ProcEntry where
  name : Option String
  pid : Option ℤ
  cpu_percent : Option ℚ
deriving DecidableEq

/-- One entry of a stored record's `users` list (lines 786-799). -/
structure UserEntry where
  name : Option String
  terminal : Option String
  host : Option String
  started : Option ℚ
deriving DecidableEq

/-- One stored record as read back by `get_all_data_from_json`.
`timestamp` is the (always present, pydantic-required) snapshot
timestamp string, modelled by the instant it denotes — this is the sort
key of lines 714 and 759; `tsParses` records whether
`datetime.fromisoformat` accepts that string (it is consulted only when
`received_at` is absent, line 700). -/
structure Item where
  ip : String
  agent_id : StrField
  cpu : CpuField
  processes : List ProcEntry
  users : List UserEntry
  os_name : Option String
  timestamp : ℚ
  tsParses : Bool
  received_at : TimeStr
deriving DecidableEq

/-- A flattened process row (lines 763-769). -/
structure FlatProc where
  name : String
  pid : ℤ
  cpu_percent : ℚ
  ip : String
  timestamp : ℚ
deriving DecidableEq

/-- A flattened user row (lines 786-790): the user entry plus the
record's `ip`. -/
structure UserFlat where
  name : Option String
  terminal : Option String
  host : Option String
  started : Option ℚ
  ip : String
deriving DecidableEq

/-- One dashboard alert (lines 809-833). -/
structure Alert where
  type : String
  icon : String
  message : String
deriving DecidableEq

/-- The JSON object returned by `/api/stats` (lines 675-690 and 835-850).
Label lists of the CPU timeline hold the timestamps whose time-of-day
presentation the source emits (line 716). -/
structure Stats where
  total_records : ℕ
  active_agents : ℕ
  avg_cpu : ℚ
  total_processes : ℕ
  active_users : ℕ
  last_update : TimeStr
  cpu_timeline_labels : List ℚ
  cpu_timeline_data : List ℚ
  os_distribution_labels : List String
  os_distribution_data : List ℕ
  ip_activity_labels : List String
  ip_activity_data : List ℕ
  top_processes_labels : List String
  top_processes_data : List ℚ
  processes : List FlatProc
  users : List UserFlat
  high_cpu_processes : List FlatProc
  alerts : List Alert
deriving DecidableEq

/-! ### `Api/Api.py`, `get_stats` helper computations -/

/-- Association-list lookup with decidable string equality. -/
def alookup (k : String) : List (String × α) → Option α
  | [] => none
  | (k1, v) :: rest => if k1 = k then some v else alookup k rest

/-- Python dict insertion `m[k] = v`: update in place if the key exists
(keeping its position), else append (insertion order preserved). -/
def upsert (k : String) (v : α) : List (String × α) → List (String × α)
  | [] => [(k, v)]
  | (k1, v1) :: rest =>
    if k1 = k then (k, v) :: rest else (k1, v1) :: upsert k v rest

/-- `item.get('agent_id', item.get('ip'))` followed by the truthiness
test `if agent_id:` (lines 723/726 and 742/745): the dedup key of a
record, or `none` when the record is skipped. -/
def dedupKey (it : Item) : Option String :=
  match it.agent_id with
  | .val s => if s = "" then none else some s
  | .null => none
  | .absent => if it.ip = "" then none else some it.ip

/-- `item.get('os', {}).get('name', 'Unknown')` (line 724). -/
def osNameOf (it : Item) : String := it.os_name.getD "Unknown"

/-- Loop body of lines 722-727 / 741-746: store `f item` under the
record's dedup key, skipping records with a falsy key. -/
def agentStep (f : Item → String) (m : List (String × String))
    (it : Item) : List (String × String) :=
  match dedupKey it with
  | some k => upsert k (f it) m
  | none => m

/-- The per-agent maps of lines 721-727 and 740-746: iterate the records
in source order, overwriting the value for an already-seen key. -/
def byAgent (f : Item → String) (data : List Item) :
    List (String × String) :=
  data.foldl (agentStep f) []

/-- `os_by_agent` (lines 721-727). -/
def os_by_agent (data : List Item) : List (String × String) :=
  byAgent osNameOf data

/-- `ip_by_agent` (lines 741-746). -/
def ip_by_agent (data : List Item) : List (String × String) :=
  byAgent (fun it => it.ip) data

/-- `counts[v] = counts.get(v, 0) + 1` over a value list
(lines 730-732 and 749-751). -/
def countValues (vs : List String) : List (String × ℕ) :=
  vs.foldl (fun m v => upsert v ((alookup v m).getD 0 + 1) m) []

/-- Truthiness of `item.get('agent_id')` (lines 701/704), together with
the value added to the set. -/
def agentTruthy (it : Item) : Option String :=
  match it.agent_id with
  | .val s => if s = "" then none else some s
  | _ => none

/-- `datetime.fromisoformat(item.get('received_at',
item.get('timestamp'))).timestamp()` (line 700): the parsed instant, or
`none` when the statement raises and control reaches the bare `except`. -/
def itemTime (it : Item) : Option ℚ :=
  match it.received_at with
  | .iso t => some t
  | .bad => none
  | .missing => if it.tsParses then some it.timestamp else none

/-- Python `set.add`. -/
def insertNew (s : String) (acc : List String) : List String :=
  if s ∈ acc then acc else acc ++ [s]

/-- Body of the active-agents loop (lines 698-705): a record whose time
parses is added when it is within the window and its `agent_id` is
truthy; a record whose time raises is added whenever its `agent_id` is
truthy. -/
def addRecent (now : ℚ) (acc : List String) (it : Item) : List String :=
  match itemTime it with
  | some t =>
    match agentTruthy it with
    | some s => if now - 300 < t then insertNew s acc else acc
    | none => acc
  | none =>
    match agentTruthy it with
    | some s => insertNew s acc
    | none => acc

/-- The `recent_agents` set (lines 696-705), as the list of its elements
in insertion order. -/
def recent_agents (data : List Item) (now : ℚ) : List String :=
  data.foldl (addRecent now) []

/-- `.get('current', 0)` on the value of the `frequency` key, including
the raise on a present-but-null frequency. -/
def freqCurrent0 : FreqField → Except Unit ℚ
  | .absent => .ok 0
  | .null => .error ()
  | .dict c => .ok (c.getD 0)

/-- `item['cpu'].get('frequency', {}).get('current', 0)`
(lines 710 and 717). -/
def cpuFreqVal : CpuField → Except Unit ℚ
  | .missing => .error ()
  | .emptyDict => .ok 0
  | .dict f => freqCurrent0 f

/-- Truthiness of `item.get('cpu')` (line 710). -/
def cpuTruthy : CpuField → Bool
  | .dict _ => true
  | _ => false

/-- The `cpu_freqs` comprehension (line 710). -/
def cpu_freqs (data : List Item) : Except Unit (List ℚ) :=
  (data.filter (fun it => cpuTruthy it.cpu)).mapM
    (fun it => cpuFreqVal it.cpu)

/-- `avg_cpu` before the MHz→GHz division (line 711). -/
def avg_cpu0 (data : List Item) : Except Unit ℚ := do
  let fs ← cpu_freqs data
  return if fs.isEmpty then 0 else fs.sum / fs.length

/-- `sorted(data, key=lambda x: x['timestamp'])` (lines 714 and 759). -/
def sortByTs (data : List Item) : List Item :=
  List.insertionSort (fun a b => a.timestamp ≤ b.timestamp) data

/-- Python slice `l[-n:]`. -/
def lastN (n : ℕ) (l : List α) : List α := l.drop (l.length - n)

/-- `recent_data` (line 714): last 20 records by timestamp. -/
def recent_data (data : List Item) : List Item := lastN 20 (sortByTs data)

/-- `latest_data` (line 759): last 10 records by timestamp. -/
def latest_data (data : List Item) : List Item := lastN 10 (sortByTs data)

/-- The data series of the CPU timeline (line 717). -/
def cpu_timeline_data (data : List Item) : Except Unit (List ℚ) :=
  (recent_data data).mapM (fun it => cpuFreqVal it.cpu)

/-- `all_processes` (lines 760-769): flatten the process lists of the
last 10 records, defaulting absent keys. -/
def all_processes (data : List Item) : List FlatProc :=
  (latest_data data).foldr
    (fun it acc =>
      it.processes.map (fun p =>
        { name := p.name.getD "Unknown"
          pid := p.pid.getD 0
          cpu_percent := p.cpu_percent.getD 0
          ip := it.ip
          timestamp := it.timestamp }) ++ acc) []

/-- `top_processes_list` (line 772): stable descending sort by CPU
percent, first ten. -/
def top_processes_list (data : List Item) : List FlatProc :=
  (List.insertionSort (fun a b => b.cpu_percent ≤ a.cpu_percent)
    (all_processes data)).take 10

/-- `critical_processes` (line 807): CPU percent strictly above 80. -/
def critical_processes (ps : List FlatProc) : List FlatProc :=
  ps.filter (fun p => decide (80 < p.cpu_percent))

/-- `warning_processes` (line 816): CPU percent in (50, 80]. -/
def warning_processes (ps : List FlatProc) : List FlatProc :=
  ps.filter (fun p => decide (50 < p.cpu_percent ∧ p.cpu_percent ≤ 80))

/-- Message of the critical-CPU alert (line 812). -/
def criticalMsg (n : ℕ) : String :=
  "⚠️ " ++ toString n ++ " proceso(s) con CPU crítico (>80%)"

/-- Message of the elevated-CPU alert (line 821). -/
def warningMsg (n : ℕ) : String :=
  "⚠️ " ++ toString n ++ " proceso(s) con CPU elevado (50-80%)"

/-- Message of the staleness alert (line 832); the argument is
`int(time_diff/60)`. -/
def staleMsg (m : ℤ) : String :=
  "No se han recibido datos en " ++ toString m ++ " minuto(s)"

/-- The process alerts (lines 806-822): one critical alert when any
process exceeds 80%, then one elevated alert when any process lies in
(50, 80], each summarizing the count. -/
def process_alerts (ps : List FlatProc) : List Alert :=
  (if (critical_processes ps).isEmpty then []
   else [{ type := "danger", icon := "🔴"
           message := criticalMsg (critical_processes ps).length }]) ++
  (if (warning_processes ps).isEmpty then []
   else [{ type := "warning", icon := "🟡"
           message := warningMsg (warning_processes ps).length }])

/-- The staleness alert (lines 825-833):
`datetime.fromisoformat(data[-1]['received_at'])` raises on an absent or
unparseable `received_at` of the last record in source order; otherwise
a warning is emitted when more than 120 seconds elapsed, stating
`int(time_diff/60)` minutes (truncation = floor for a positive value). -/
def staleness_alert (now : ℚ) : TimeStr → Except Unit (List Alert)
  | .iso t =>
    .ok
      (if 120 < now - t then
        [{ type := "warning", icon := "⏰"
           message := staleMsg (Rat.floor ((now - t) / 60)) }]
      else [])
  | _ => .error ()

/-- `all_users` (lines 785-790): flatten the user lists of the last 10
records, attaching the record's `ip`. -/
def all_users (data : List Item) : List UserFlat :=
  (latest_data data).foldr
    (fun it acc =>
      it.users.map (fun u =>
        { name := u.name, terminal := u.terminal, host := u.host
          started := u.started, ip := it.ip }) ++ acc) []

/-- Python string interpolation of a possibly-absent value. -/
def optStr : Option String → String
  | some s => s
  | none => "None"

/-- The dedup key of line 796:
`f"{user.get('name')}-{user.get('terminal')}-{user.get('ip')}"`. -/
def userKey (u : UserFlat) : String :=
  optStr u.name ++ "-" ++ optStr u.terminal ++ "-" ++ u.ip

/-- `unique_users` (lines 793-799): keep the first occurrence of each
key. -/
def dedupUsers (us : List UserFlat) : List UserFlat :=
  (us.foldl
    (fun (acc : List UserFlat × List String) u =>
      if userKey u ∈ acc.2 then acc
      else (acc.1 ++ [u], acc.2 ++ [userKey u])) ([], [])).1

/-- `/api/stats` (`get_stats`, lines 669-850).  `now` is the single
instant standing for the `datetime.now()` calls of the body.  The empty
store returns the all-zero payload of lines 675-690; otherwise the
statistics are computed as at lines 692-850, and the whole request
raises (`.error ()`) exactly when one of the modelled statements
raises. -/
def get_stats (data : List Item) (now : ℚ) : Except Unit Stats :=
  if data.isEmpty then
    .ok
      { total_records := 0, active_agents := 0, avg_cpu := 0
        total_processes := 0, active_users := 0, last_update := .iso now
        cpu_timeline_labels := [], cpu_timeline_data := []
        os_distribution_labels := [], os_distribution_data := []
        ip_activity_labels := [], ip_activity_data := []
        top_processes_labels := [], top_processes_data := []
        processes := [], users := [], high_cpu_processes := []
        alerts := [] }
  else
    match avg_cpu0 data, cpu_timeline_data data,
      staleness_alert now
        ((data.getLast?.map (fun it => it.received_at)).getD .missing) with
    | .ok avg0, .ok tl, .ok stale =>
      .ok
        { total_records := data.length
          active_agents := (recent_agents data now).length
          avg_cpu := avg0 / 1000
          total_processes :=
            (((all_processes data).map (fun p => p.name)).dedup).length
          active_users := (dedupUsers (all_users data)).length
          last_update :=
            (data.getLast?.map (fun it => it.received_at)).getD .missing
          cpu_timeline_labels := (recent_data data).map (fun it => it.timestamp)
          cpu_timeline_data := tl
          os_distribution_labels :=
            (countValues ((os_by_agent data).map Prod.snd)).map Prod.fst
          os_distribution_data :=
            (countValues ((os_by_agent data).map Prod.snd)).map Prod.snd
          ip_activity_labels :=
            (countValues ((ip_by_agent data).map Prod.snd)).map Prod.fst
          ip_activity_data :=
            (countValues ((ip_by_agent data).map Prod.snd)).map Prod.snd
          top_processes_labels :=
            (top_processes_list data).map
              (fun p => p.name ++ " (PID: " ++ toString p.pid ++ ")")
          top_processes_data :=
            (top_processes_list data).map (fun p => p.cpu_percent)
          processes := top_processes_list data
          users := dedupUsers (all_users data)
          high_cpu_processes :=
            ((all_processes data).filter
              (fun p => decide (50 < p.cpu_percent))).take 20
          alerts := process_alerts (all_processes data) ++ stale }
    | _, _, _ => .error ()

/-- Whether the request succeeded (no uncaught exception). -/
def isOkB : Except Unit Stats → Bool
  | .ok _ => true
  | .error _ => false

instance exceptDecEq [DecidableEq ε] [DecidableEq α] :
    DecidableEq (Except ε α)
  | .ok a, .ok b =>
    if h : a = b then .isTrue (by rw [h])
    else .isFalse (by intro he; cases he; exact h rfl)
  | .ok _, .error _ => .isFalse (by intro h; cases h)
  | .error _, .ok _ => .isFalse (by intro h; cases h)
  | .error e, .error f =>
    if h : e = f then .isTrue (by rw [h])
    else .isFalse (by intro he; cases he; exact h rfl)

/-- Modelled from the spec for comparison (claim C2): "mean of
`currentFrequencyMHz` across all records that report a non-null value" —
the frequency a record reports, when it reports one. -/
def specReported (it : Item) : Option ℚ :=
  match it.cpu with
  | .dict (.dict (some q)) => some q
  | _ => none

/-- Modelled from the spec for comparison (claim C2): the arithmetic
mean over exactly the records reporting a non-null frequency. -/
def specAvgFreq (data : List Item) : ℚ :=
  let l := data.filterMap specReported
  if l.isEmpty then 0 else l.sum / l.length

/-- The value line 710 yields for a record with a truthy `cpu` dict and
a non-null `frequency`: the reported frequency, or 0 when the key chain
is incomplete. -/
def freqDefault0 : CpuField → ℚ
  | .dict (.dict c) => c.getD 0
  | _ => 0

/-! ### Theorems -/

theorem attemptFails_iff (o : Outcome) :
    attemptFails o = true ↔ o ≠ Outcome.status 200 := by
  cases o with
  | exc => simp [attemptFails]
  | status c => simp [attemptFails]

theorem sendLoop_success (backoff : ℚ) :
    ∀ (l : List Outcome) (i : ℕ),
      ((sendLoop backoff l i).1 = true ↔ Outcome.status 200 ∈ l)
  | [], i => by simp [sendLoop]
  | o :: rest, i => by
    by_cases h : attemptFails o = true
    · have ho : o ≠ Outcome.status 200 := (attemptFails_iff o).1 h
      simp only [sendLoop, h, if_true, List.mem_cons]
      rw [sendLoop_success backoff rest (i + 1)]
      constructor
      · exact Or.inr
      · rintro (hx | hx)
        · exact absurd hx.symm ho
        · exact hx
    · have ho : o = Outcome.status 200 := by
        by_contra hne
        exact h ((attemptFails_iff o).2 hne)
      subst ho
      simp [sendLoop, attemptFails]

/-- Claim C4 (counterexample): a server answering HTTP 201 — a 2xx
status — on every attempt still makes `send_to_api` fail after all three
attempts, because the source accepts only the literal status 200. -/
theorem claim_C4_counterexample :
    send_to_api (fun _ => Outcome.status 201) 3 2 = (false, 3, 6) ∧
      is2xx (Outcome.status 201) = true := by
  refine ⟨?_, by decide⟩
  have hr : List.range 3 = [0, 1, 2] := rfl
  rw [send_to_api, hr]
  simp only [List.map_cons, List.map_nil]
  simp only [sendLoop, attemptFails, List.isEmpty]
  norm_num

/-- Claim C4 (amended): the transport send reports success if and only
if some attempt within the attempt budget receives a response with
status code exactly 200; any other status — 2xx included — and any
transport exception count as failed attempts. -/
theorem claim_C4_amended (out : ℕ → Outcome) (retries : ℕ) (backoff : ℚ) :
    (send_to_api out retries backoff).1 = true ↔
      ∃ i, i < retries ∧ out i = Outcome.status 200 := by
  rw [send_to_api, sendLoop_success]
  constructor
  · intro ho
    rcases List.mem_map.1 ho with ⟨i, hi, hoi⟩
    exact ⟨i, List.mem_range.1 hi, hoi⟩
  · rintro ⟨i, hi, h200⟩
    rw [← h200]
    exact List.mem_map_of_mem out (List.mem_range.2 hi)

/-- Claim C6: with `retries = 3` and `backoff = 2` against a server for
which no attempt yields a 2xx response, `send_to_api` performs exactly 3
attempts, sleeps 2 + 4 = 6 seconds in total (no sleep after the final
attempt), and returns failure. -/
theorem claim_C6 (out : ℕ → Outcome)
    (h : ∀ i, i < 3 → is2xx (out i) = false) :
    send_to_api out 3 2 = (false, 3, 6) ∧ (2 + 4 : ℚ) ≤ 6 := by
  have hf : ∀ i, i < 3 → attemptFails (out i) = true := by
    intro i hi
    have h2 := h i hi
    rw [attemptFails_iff]
    intro heq
    rw [heq] at h2
    simp [is2xx] at h2
  have h0 := hf 0 (by omega)
  have h1 := hf 1 (by omega)
  have h2 := hf 2 (by omega)
  refine ⟨?_, by norm_num⟩
  have hr : List.range 3 = [0, 1, 2] := rfl
  rw [send_to_api, hr]
  simp only [List.map_cons, List.map_nil]
  simp only [sendLoop, h0, h1, h2, if_true, List.isEmpty]
  norm_num

def outExc : ℕ → Outcome := fun _ => Outcome.exc

/-- Witness for claim C6 at a server that always raises. -/
theorem claim_C6_witness : send_to_api outExc 3 2 = (false, 3, 6) :=
  (claim_C6 outExc (fun _ _ => rfl)).1

/-- Claim C9: aggregating an empty record set returns zero for every
numeric field, an empty sequence for every list field, the current time
as `last_update`, and succeeds (no null, no error). -/
theorem claim_C9_empty_stats (now : ℚ) :
    get_stats [] now =
      .ok
        { total_records := 0, active_agents := 0, avg_cpu := 0
          total_processes := 0, active_users := 0
          last_update := .iso now
          cpu_timeline_labels := [], cpu_timeline_data := []
          os_distribution_labels := [], os_distribution_data := []
          ip_activity_labels := [], ip_activity_data := []
          top_processes_labels := [], top_processes_data := []
          processes := [], users := [], high_cpu_processes := []
          alerts := [] } := rfl

theorem findIfaceAddr_not_loopback (l : List IfAddr) :
    ∀ ip : String, findIfaceAddr l = some ip →
      strStarts ip "127." = false := by
  induction l with
  | nil => intro ip h; simp [findIfaceAddr] at h
  | cons a rest ih =>
    intro ip h
    rw [findIfaceAddr] at h
    by_cases hc : (a.isInet && !rejectedAddr a.address) = true
    · rw [if_pos hc] at h
      injection h with h
      subst h
      have hr : rejectedAddr a.address = false := by
        rw [Bool.and_eq_true] at hc
        rcases hc with ⟨h1, h2⟩
        simpa using h2
      rw [rejectedAddr] at hr
      exact (Bool.or_eq_false_iff.1 hr).1
    · rw [if_neg hc] at h
      exact ih ip h

theorem method2Pick_not_loopback (l : List Iface) :
    ∀ ip : String, method2Pick l = some ip →
      strStarts ip "127." = false := by
  induction l with
  | nil => intro ip h; simp [method2Pick] at h
  | cons i rest ih =>
    intro ip h
    rw [method2Pick] at h
    by_cases hc : skippedIface i.name = true
    · rw [if_pos hc] at h
      exact ih ip h
    · rw [if_neg hc] at h
      cases hfa : findIfaceAddr i.addrs with
      | some ip2 =>
        rw [hfa] at h
        injection h with h
        subst h
        exact findIfaceAddr_not_loopback _ _ hfa
      | none =>
        rw [hfa] at h
        exact ih ip h

theorem method3Acc_not_loopback (m3 : Option String) (ip : String)
    (h : method3Acc m3 = some ip) : strStarts ip "127." = false := by
  cases m3 with
  | none => simp [method3Acc] at h
  | some s =>
    rw [method3Acc] at h
    by_cases hc : strStarts s "127." = true
    · rw [if_pos hc] at h
      cases h
    · rw [if_neg hc] at h
      injection h with h
      subst h
      exact Bool.eq_false_iff.2 hc

/-- Claim C7 (counterexample): when the socket strategy (method 1)
returns a loopback address, `get_real_ip` returns that loopback value
even though method 1 did not fail, method 2 had an acceptable
non-loopback interface address, and method 3 had an acceptable
non-loopback hostname address — the claim's "loopback only when every
non-fallback strategy has failed or returned a rejected value" is
violated because method 1's result is never filtered. -/
theorem claim_C7_counterexample :
    get_real_ip (some "127.0.0.1")
        (some [⟨"eth0", [⟨true, "192.168.1.5"⟩]⟩]) (some "10.0.0.5") =
      "127.0.0.1" ∧
    method2Pick [⟨"eth0", [⟨true, "192.168.1.5"⟩]⟩] = some "192.168.1.5" ∧
    method3Acc (some "10.0.0.5") = some "10.0.0.5" ∧
    strStarts "127.0.0.1" "127." = true := by
  decide

/-- Claim C7 (amended): `get_real_ip` always returns a string; a value
returned by method 1 is passed through unfiltered, and when method 1
fails the result is a loopback address exactly when method 2 accepts no
interface address and method 3 accepts no hostname address, in which
case the result is the literal `127.0.0.1`. -/
theorem claim_C7_amended (m2 : Option (List Iface)) (m3 : Option String) :
    (strStarts (get_real_ip none m2 m3) "127." = true ↔
      m2.bind method2Pick = none ∧ method3Acc m3 = none) ∧
    (m2.bind method2Pick = none ∧ method3Acc m3 = none →
      get_real_ip none m2 m3 = "127.0.0.1") := by
  cases hb : m2.bind method2Pick with
  | some ip =>
    have hip : strStarts ip "127." = false := by
      cases m2 with
      | none => simp at hb
      | some l => exact method2Pick_not_loopback l ip (by simpa using hb)
    constructor
    · simp only [get_real_ip, hb, hip]
      simp
    · rintro ⟨h1, h2⟩
      cases h1
  | none =>
    cases hm3 : method3Acc m3 with
    | some ip =>
      have hip : strStarts ip "127." = false :=
        method3Acc_not_loopback m3 ip hm3
      constructor
      · simp only [get_real_ip, hb, hm3, hip]
        simp
      · rintro ⟨h1, h2⟩
        cases h2
    | none =>
      constructor
      · constructor
        · intro _
          exact ⟨rfl, rfl⟩
        · intro _
          simp only [get_real_ip, hb, hm3]
          decide
      · intro _
        simp only [get_real_ip, hb, hm3]

/-- Witness for the amended claim C7: with method 1 raising and methods
2 and 3 yielding nothing, the resolver returns the loopback literal. -/
theorem claim_C7_witness : get_real_ip none none none = "127.0.0.1" :=
  (claim_C7_amended none none).2 ⟨rfl, rfl⟩

/-- Claim C8: for every visible process list and per-process CPU
reading, the process sequence produced by `collect_system_info` has at
most 10 entries and is sorted in non-increasing order of the CPU-percent
sort key (an absent reading sorts as 0, as at line 108). -/
theorem claim_C8_top10_sorted (pl : List PInfo) :
    (collect_processes pl).length ≤ 10 ∧
    (collect_processes pl).Pairwise (fun a b => procKey b ≤ procKey a) := by
  constructor
  · rw [collect_processes]
    simp [List.length_take]
  · haveI : IsTotal PInfo (fun a b => procKey b ≤ procKey a) :=
      ⟨fun a b => le_total (procKey b) (procKey a)⟩
    haveI : IsTrans PInfo (fun a b => procKey b ≤ procKey a) :=
      ⟨fun a b c hab hbc => le_trans hbc hab⟩
    have hs := List.sorted_insertionSort
      (fun a b => procKey b ≤ procKey a) pl
    exact hs.sublist (List.take_sublist _ _)

theorem mem_insertNew (s x : String) (acc : List String) (h : x ∈ acc) :
    x ∈ insertNew s acc := by
  rw [insertNew]
  by_cases hs : s ∈ acc
  · rwa [if_pos hs]
  · rw [if_neg hs]
    exact List.mem_append_left _ h

theorem self_mem_insertNew (s : String) (acc : List String) :
    s ∈ insertNew s acc := by
  rw [insertNew]
  by_cases hs : s ∈ acc
  · rwa [if_pos hs]
  · rw [if_neg hs]
    exact List.mem_append_right _ (List.mem_singleton.2 rfl)

theorem mem_addRecent (now : ℚ) (it : Item) (acc : List String) (x : String)
    (h : x ∈ acc) : x ∈ addRecent now acc it := by
  cases htt : itemTime it with
  | some t =>
    cases hat : agentTruthy it with
    | some s =>
      simp only [addRecent, htt, hat]
      by_cases hlt : now - 300 < t
      · rw [if_pos hlt]
        exact mem_insertNew s x acc h
      · rwa [if_neg hlt]
    | none => simpa only [addRecent, htt, hat] using h
  | none =>
    cases hat : agentTruthy it with
    | some s =>
      simp only [addRecent, htt, hat]
      exact mem_insertNew s x acc h
    | none => simpa only [addRecent, htt, hat] using h

theorem mem_foldl_addRecent (now : ℚ) (l : List Item) :
    ∀ (acc : List String) (x : String), x ∈ acc →
      x ∈ l.foldl (addRecent now) acc := by
  induction l with
  | nil => intro acc x h; simpa using h
  | cons it rest ih =>
    intro acc x h
    simp only [List.foldl_cons]
    exact ih _ x (mem_addRecent now it acc x h)

theorem mem_foldl_addRecent_of_mem (now : ℚ) (it : Item) (s : String)
    (hat : agentTruthy it = some s) (htime : itemTime it = none) :
    ∀ (l : List Item) (acc : List String), it ∈ l →
      s ∈ l.foldl (addRecent now) acc := by
  intro l
  induction l with
  | nil => intro acc h; cases h
  | cons a rest ih =>
    intro acc h
    rcases List.mem_cons.1 h with rfl | h2
    · simp only [List.foldl_cons]
      apply mem_foldl_addRecent
      simp only [addRecent, htime, hat]
      exact self_mem_insertNew s acc
    · simp only [List.foldl_cons]
      exact ih _ h2

/-- Claim C10: a record carrying a non-empty `agent_id` whose
`received_at`/`timestamp` string cannot be parsed is added to the
active-agent set unconditionally — for every `now`, however far in the
past the record may lie, the 5-minute window is bypassed. -/
theorem claim_C10_unparseable_counted (data : List Item) (now : ℚ)
    (it : Item) (s : String) (hmem : it ∈ data)
    (hid : it.agent_id = StrField.val s) (hs : s ≠ "")
    (htime : itemTime it = none) :
    s ∈ recent_agents data now := by
  have hat : agentTruthy it = some s := by
    simp only [agentTruthy, hid]
    rw [if_neg hs]
  exact mem_foldl_addRecent_of_mem now it s hat htime data [] hmem

def itemOldBad : Item :=
  { ip := "9.9.9.9", agent_id := .val "agent-x", cpu := .emptyDict
    processes := [], users := [], os_name := some "Linux"
    timestamp := 0, tsParses := true, received_at := .bad }

/-- Witness for claim C10: an agent whose only record has an unparseable
`received_at` and a timestamp at the epoch is counted as active even a
billion seconds later. -/
theorem claim_C10_witness :
    "agent-x" ∈ recent_agents [itemOldBad] 1000000000 :=
  claim_C10_unparseable_counted [itemOldBad] 1000000000 itemOldBad "agent-x"
    (by decide) (by decide) (by decide) (by decide)

/-- Claim C5: over any flattened recent-process set, a process at
exactly 50% CPU contributes to no process alert; one in (50, 80] — 80
included — belongs to the elevated class only, whose single warning
alert summarizes the count of such processes; one strictly above 80
belongs to the critical class only, whose single danger alert summarizes
the count. -/
theorem claim_C5_alert_boundaries (ps : List FlatProc) (p : FlatProc)
    (hmem : p ∈ ps) :
    (p.cpu_percent = 50 →
      p ∉ critical_processes ps ∧ p ∉ warning_processes ps) ∧
    (50 < p.cpu_percent → p.cpu_percent ≤ 80 →
      p ∈ warning_processes ps ∧ p ∉ critical_processes ps ∧
      (process_alerts ps).filter (fun a => decide (a.icon = "🟡")) =
        [{ type := "warning", icon := "🟡"
           message := warningMsg (warning_processes ps).length }]) ∧
    (80 < p.cpu_percent →
      p ∈ critical_processes ps ∧ p ∉ warning_processes ps ∧
      (process_alerts ps).filter (fun a => decide (a.icon = "🔴")) =
        [{ type := "danger", icon := "🔴"
           message := criticalMsg (critical_processes ps).length }]) := by
  refine ⟨?_, ?_, ?_⟩
  · intro h50
    constructor
    · intro hc
      have h2 := (List.mem_filter.1 hc).2
      rw [h50] at h2
      simp at h2
      linarith
    · intro hw
      have h2 := (List.mem_filter.1 hw).2
      rw [h50] at h2
      simp at h2
  · intro hgt hle
    have hw : p ∈ warning_processes ps :=
      List.mem_filter.2 ⟨hmem, by simp; exact ⟨hgt, hle⟩⟩
    refine ⟨hw, ?_, ?_⟩
    · intro hc
      have h2 := (List.mem_filter.1 hc).2
      simp at h2
      linarith
    · have hwne : ¬((warning_processes ps).isEmpty = true) := by
        rw [List.isEmpty_iff]
        intro he
        rw [he] at hw
        cases hw
      rw [process_alerts, List.filter_append, if_neg hwne]
      by_cases hce : (critical_processes ps).isEmpty = true
      · rw [if_pos hce]
        simp
      · rw [if_neg hce]
        simp
  · intro hgt
    have hc : p ∈ critical_processes ps :=
      List.mem_filter.2 ⟨hmem, by simpa using hgt⟩
    refine ⟨hc, ?_, ?_⟩
    · intro hw
      have h2 := (List.mem_filter.1 hw).2
      simp at h2
      linarith [h2.2]
    · have hcne : ¬((critical_processes ps).isEmpty = true) := by
        rw [List.isEmpty_iff]
        intro he
        rw [he] at hc
        cases hc
      rw [process_alerts, List.filter_append, if_neg hcne]
      by_cases hwe : (warning_processes ps).isEmpty = true
      · rw [if_pos hwe]
        simp
      · rw [if_neg hwe]
        simp

def procW : FlatProc :=
  { name := "stress", pid := 42, cpu_percent := 80, ip := "9.9.9.9"
    timestamp := 0 }

/-- Witness for claim C5 at the 80% boundary: the process is elevated,
not critical, and the single elevated alert counts it. -/
theorem claim_C5_witness :
    procW ∈ warning_processes [procW] ∧
    procW ∉ critical_processes [procW] ∧
    (process_alerts [procW]).filter (fun a => decide (a.icon = "🟡")) =
      [{ type := "warning", icon := "🟡"
         message := warningMsg (warning_processes [procW]).length }] :=
  (claim_C5_alert_boundaries [procW] procW (by decide)).2.1
    (by norm_num [procW]) (by norm_num [procW])

theorem alookup_upsert (k : String) (v : α) (m : List (String × α))
    (x : String) :
    alookup x (upsert k v m) = if k = x then some v else alookup x m := by
  induction m with
  | nil =>
    by_cases hx : k = x
    · simp [upsert, alookup, hx]
    · simp [upsert, alookup, hx]
  | cons kv rest ih =>
    obtain ⟨k1, v1⟩ := kv
    rw [upsert]
    by_cases hk : k1 = k
    · subst hk
      by_cases hx : k1 = x
      · simp [alookup, hx]
      · simp [alookup, hx]
    · rw [if_neg hk, alookup]
      by_cases hx : k1 = x
      · have hkx : ¬(k = x) := fun h => hk (h ▸ hx)
        rw [if_pos hx, if_neg hkx, alookup, if_pos hx]
      · rw [if_neg hx, ih, alookup, if_neg hx]

theorem mem_keys_upsert (k : String) (v : α) (m : List (String × α))
    (x : String) :
    x ∈ (upsert k v m).map Prod.fst ↔ x = k ∨ x ∈ m.map Prod.fst := by
  induction m with
  | nil => simp [upsert]
  | cons kv rest ih =>
    obtain ⟨k1, v1⟩ := kv
    rw [upsert]
    by_cases hk : k1 = k
    · subst hk
      rw [if_pos rfl]
      simp only [List.map_cons, List.mem_cons]
      tauto
    · rw [if_neg hk]
      simp only [List.map_cons, List.mem_cons, ih]
      tauto

theorem nodup_keys_upsert (k : String) (v : α) (m : List (String × α))
    (h : (m.map Prod.fst).Nodup) : ((upsert k v m).map Prod.fst).Nodup := by
  induction m with
  | nil => simp [upsert]
  | cons kv rest ih =>
    obtain ⟨k1, v1⟩ := kv
    rw [upsert]
    by_cases hk : k1 = k
    · subst hk
      simpa using h
    · rw [if_neg hk]
      simp only [List.map_cons, List.nodup_cons] at h ⊢
      obtain ⟨hk1, hrest⟩ := h
      refine ⟨?_, ih hrest⟩
      intro hmm
      rcases (mem_keys_upsert k v rest k1).1 hmm with he | he
      · exact hk he
      · exact hk1 he

theorem nodup_keys_agentStep (f : Item → String)
    (m : List (String × String)) (it : Item)
    (h : (m.map Prod.fst).Nodup) :
    ((agentStep f m it).map Prod.fst).Nodup := by
  rw [agentStep]
  cases dedupKey it with
  | some k => exact nodup_keys_upsert k (f it) m h
  | none => exact h

theorem nodup_keys_foldl_agentStep (f : Item → String) (l : List Item) :
    ∀ m : List (String × String), (m.map Prod.fst).Nodup →
      ((l.foldl (agentStep f) m).map Prod.fst).Nodup := by
  induction l with
  | nil => intro m h; simpa using h
  | cons it rest ih =>
    intro m h
    simp only [List.foldl_cons]
    exact ih _ (nodup_keys_agentStep f m it h)

theorem alookup_foldl_agentStep (f : Item → String) (k : String)
    (l : List Item) :
    ∀ m : List (String × String),
      alookup k (l.foldl (agentStep f) m) =
        match (l.filter (fun it => decide (dedupKey it = some k))).getLast? with
        | some it => some (f it)
        | none => alookup k m := by
  induction l with
  | nil => intro m; simp
  | cons it rest ih =>
    intro m
    simp only [List.foldl_cons, List.filter_cons]
    by_cases hd : dedupKey it = some k
    · rw [if_pos (by simpa using hd)]
      rw [ih (agentStep f m it)]
      have hstep : alookup k (agentStep f m it) = some (f it) := by
        rw [agentStep, hd, alookup_upsert, if_pos rfl]
      cases hlast :
          (rest.filter (fun it2 => decide (dedupKey it2 = some k))).getLast? with
      | some it2 =>
        rw [List.getLast?_cons, hlast]
        rfl
      | none =>
        rw [List.getLast?_cons, hlast]
        simpa using hstep
    · rw [if_neg (by simpa using hd)]
      rw [ih (agentStep f m it)]
      have hstep : alookup k (agentStep f m it) = alookup k m := by
        rw [agentStep]
        cases hdk : dedupKey it with
        | some k2 =>
          have hne : k2 ≠ k := by
            intro he
            exact hd (by rw [hdk, he])
          rw [alookup_upsert, if_neg hne]
        | none => rfl
      cases hlast :
          (rest.filter (fun it2 => decide (dedupKey it2 = some k))).getLast? with
      | some it2 => rfl
      | none => simpa using hstep

/-- Claim C1 (amended): in the OS and IP distribution maps each dedup
key occurs exactly once, and it is attributed the OS name / IP of the
**last record in input (storage) order** carrying that key — not the
record with the latest timestamp, since the loops of lines 722-727 and
741-746 never sort by timestamp.  The dedup key is the `agent_id` when
that key is present and non-empty, the record's IP when the `agent_id`
key is absent, and the record is skipped when `agent_id` is null or
empty. -/
theorem claim_C1_amended (data : List Item) (k : String) :
    ((os_by_agent data).map Prod.fst).Nodup ∧
    ((ip_by_agent data).map Prod.fst).Nodup ∧
    alookup k (os_by_agent data) =
      ((data.filter (fun it => decide (dedupKey it = some k))).getLast?).map
        osNameOf ∧
    alookup k (ip_by_agent data) =
      ((data.filter (fun it => decide (dedupKey it = some k))).getLast?).map
        (fun it => it.ip) := by
  refine ⟨?_, ?_, ?_, ?_⟩
  · exact nodup_keys_foldl_agentStep osNameOf data [] (by simp)
  · exact nodup_keys_foldl_agentStep (fun it => it.ip) data [] (by simp)
  · rw [os_by_agent, byAgent, alookup_foldl_agentStep]
    cases (data.filter (fun it => decide (dedupKey it = some k))).getLast? with
    | some it => rfl
    | none => rfl
  · rw [ip_by_agent, byAgent, alookup_foldl_agentStep]
    cases (data.filter (fun it => decide (dedupKey it = some k))).getLast? with
    | some it => rfl
    | none => rfl

def itLater : Item :=
  { ip := "1.0.0.1", agent_id := .val "agent-a", cpu := .emptyDict
    processes := [], users := [], os_name := some "Linux"
    timestamp := 2, tsParses := true, received_at := .iso 2 }

def itEarlier : Item :=
  { ip := "2.0.0.2", agent_id := .val "agent-a", cpu := .emptyDict
    processes := [], users := [], os_name := some "Windows"
    timestamp := 1, tsParses := true, received_at := .iso 1 }

/-- Claim C1 (counterexample): two records of the same agent, the one
with the **later** timestamp stored first.  The dedup maps attribute the
agent to the IP and OS of the record with the *earlier* timestamp
(the last one in input order), contradicting the claim that the record
with the latest timestamp wins. -/
theorem claim_C1_counterexample :
    ip_by_agent [itLater, itEarlier] = [("agent-a", "2.0.0.2")] ∧
    os_by_agent [itLater, itEarlier] = [("agent-a", "Windows")] ∧
    itEarlier.timestamp < itLater.timestamp ∧
    itLater.ip = "1.0.0.1" ∧ osNameOf itLater = "Linux" ∧
    ("2.0.0.2" : String) ≠ "1.0.0.1" ∧ ("Windows" : String) ≠ "Linux" := by
  decide

theorem mapM_cpuFreqVal_ok (l : List Item)
    (h : ∀ it ∈ l, cpuFreqVal it.cpu = .ok (freqDefault0 it.cpu)) :
    l.mapM (fun it => cpuFreqVal it.cpu) =
      .ok (l.map (fun it => freqDefault0 it.cpu)) := by
  induction l with
  | nil => rfl
  | cons a rest ih =>
    rw [List.mapM_cons, h a (List.mem_cons_self a rest),
      ih (fun it hit => h it (List.mem_cons_of_mem a hit))]
    rfl

theorem cpu_freqs_ok (data : List Item)
    (hnn : ∀ it ∈ data, it.cpu ≠ CpuField.dict FreqField.null) :
    cpu_freqs data =
      .ok ((data.filter (fun it => cpuTruthy it.cpu)).map
        (fun it => freqDefault0 it.cpu)) := by
  rw [cpu_freqs]
  apply mapM_cpuFreqVal_ok
  intro it hit
  have hmem := (List.mem_filter.1 hit).1
  have htr := (List.mem_filter.1 hit).2
  cases hcpu : it.cpu with
  | missing => rw [hcpu] at htr; simp [cpuTruthy] at htr
  | emptyDict => rw [hcpu] at htr; simp [cpuTruthy] at htr
  | dict f =>
    cases f with
    | null => exact absurd hcpu (hnn it hmem)
    | absent => rfl
    | dict c => rfl

theorem avg_cpu0_ok (data : List Item)
    (hnn : ∀ it ∈ data, it.cpu ≠ CpuField.dict FreqField.null) :
    avg_cpu0 data =
      .ok (if (data.filter (fun it => cpuTruthy it.cpu)).isEmpty then 0
        else ((data.filter (fun it => cpuTruthy it.cpu)).map
            (fun it => freqDefault0 it.cpu)).sum /
          ((data.filter (fun it => cpuTruthy it.cpu)).length : ℚ)) := by
  rw [avg_cpu0, cpu_freqs_ok data hnn]
  cases hfl : data.filter (fun it => cpuTruthy it.cpu) with
  | nil => rfl
  | cons a rest =>
    show Except.ok _ = Except.ok _
    congr 1
    simp [List.isEmpty]

/-- Claim C2 (amended): for every record set in which no stored
`frequency` is null (a null frequency makes the endpoint raise), the
reported average-CPU statistic is the arithmetic mean of
`frequency.current` over all records with a truthy `cpu` dictionary —
records whose `frequency` (or `current`) key is missing are **included
and counted as 0** in both numerator and denominator — divided by 1000;
only records without a truthy `cpu` dictionary are excluded. -/
theorem claim_C2_amended (data : List Item) (now : ℚ)
    (hnn : ∀ it ∈ data, it.cpu ≠ CpuField.dict FreqField.null)
    (hok : isOkB (get_stats data now) = true) :
    (get_stats data now).map Stats.avg_cpu =
      .ok ((if (data.filter (fun it => cpuTruthy it.cpu)).isEmpty then 0
        else ((data.filter (fun it => cpuTruthy it.cpu)).map
            (fun it => freqDefault0 it.cpu)).sum /
          ((data.filter (fun it => cpuTruthy it.cpu)).length : ℚ)) / 1000) := by
  by_cases hemp : data.isEmpty = true
  · rw [List.isEmpty_iff.1 hemp]
    show Except.ok (0 : ℚ) = _
    norm_num
  · have havg := avg_cpu0_ok data hnn
    simp only [get_stats] at hok ⊢
    rw [if_neg hemp] at hok ⊢
    rw [havg] at hok ⊢
    cases htl : cpu_timeline_data data with
    | error e =>
      cases hst : staleness_alert now
          ((data.getLast?.map (fun it => it.received_at)).getD .missing) with
      | error e2 => rw [htl, hst] at hok; simp [isOkB] at hok
      | ok stale => rw [htl, hst] at hok; simp [isOkB] at hok
    | ok tl =>
      cases hst : staleness_alert now
          ((data.getLast?.map (fun it => it.received_at)).getD .missing) with
      | error e2 => rw [htl, hst] at hok; simp [isOkB] at hok
      | ok stale => rfl

def itFreq : Item :=
  { ip := "3.0.0.1", agent_id := .val "agent-b"
    cpu := .dict (.dict (some 100)), processes := [], users := []
    os_name := some "Linux", timestamp := 1, tsParses := true
    received_at := .iso 1 }

def itNoFreq : Item :=
  { ip := "3.0.0.1", agent_id := .val "agent-b", cpu := .dict .absent
    processes := [], users := [], os_name := some "Linux", timestamp := 2
    tsParses := true, received_at := .iso 2 }

unseal Rat.add Rat.sub Rat.mul Rat.inv in
/-- Claim C2 (counterexample): one record reports 100 MHz, a second has
a `cpu` dictionary without a `frequency` key.  The claim's mean over
non-null reporters is 100, but the endpoint reports (100 + 0)/2/1000 =
1/20 — the frequency-less record contributes a zero to numerator and
denominator instead of being excluded. -/
theorem claim_C2_counterexample :
    (get_stats [itFreq, itNoFreq] 60).map Stats.avg_cpu = .ok (1 / 20) ∧
    specAvgFreq [itFreq, itNoFreq] = 100 ∧ ((1 : ℚ) / 20) ≠ 100 := by
  refine ⟨by decide, by decide, by norm_num⟩

unseal Rat.add Rat.sub Rat.mul Rat.inv in
/-- Witness for the amended claim C2 on the same two records. -/
theorem claim_C2_witness :
    (get_stats [itFreq, itNoFreq] 60).map Stats.avg_cpu =
      .ok ((if ([itFreq, itNoFreq].filter
            (fun it => cpuTruthy it.cpu)).isEmpty then 0
        else (([itFreq, itNoFreq].filter
              (fun it => cpuTruthy it.cpu)).map
            (fun it => freqDefault0 it.cpu)).sum /
          (([itFreq, itNoFreq].filter
              (fun it => cpuTruthy it.cpu)).length : ℚ)) / 1000) :=
  claim_C2_amended [itFreq, itNoFreq] 60 (by decide) (by decide)

theorem ratFloor_floor (q : ℚ) : Rat.floor q = ⌊q⌋ := by
  rw [Rat.floor_def', Rat.floor_def]

theorem stale_filter_process_alerts (ps : List FlatProc) :
    (process_alerts ps).filter (fun a => decide (a.icon = "⏰")) = [] := by
  rw [process_alerts]
  by_cases h1 : (critical_processes ps).isEmpty = true <;>
    by_cases h2 : (warning_processes ps).isEmpty = true
  · rw [if_pos h1, if_pos h2]; rfl
  · rw [if_pos h1, if_neg h2]; rfl
  · rw [if_neg h1, if_pos h2]; rfl
  · rw [if_neg h1, if_neg h2]; rfl

/-- Claim C3 (amended): whenever the `received_at` of the **last record
in input (storage) order** — not necessarily the most recent record —
parses to the instant `t` and the request succeeds, the staleness alert
is present if and only if `now - t` exceeds 120 seconds, and it states
`⌊(now - t)/60⌋` minutes.  In particular a last record received 119
seconds ago yields no staleness alert, and one received 121 seconds ago
yields a warning with minutes = 2. -/
theorem claim_C3_amended (data : List Item) (now t : ℚ)
    (hlast : data.getLast?.map (fun it => it.received_at) =
      some (TimeStr.iso t))
    (hok : isOkB (get_stats data now) = true) :
    (get_stats data now).map
        (fun st => st.alerts.filter (fun a => decide (a.icon = "⏰"))) =
      .ok (if 120 < now - t then
            [{ type := "warning", icon := "⏰"
               message := staleMsg ⌊(now - t) / 60⌋ }]
          else []) := by
  have hemp : ¬(data.isEmpty = true) := by
    intro he
    rw [List.isEmpty_iff.1 he] at hlast
    simp at hlast
  have hget : (data.getLast?.map (fun it => it.received_at)).getD
      TimeStr.missing = TimeStr.iso t := by
    rw [hlast]
    rfl
  rw [← ratFloor_floor]
  simp only [get_stats] at hok ⊢
  rw [if_neg hemp] at hok ⊢
  rw [hget] at hok ⊢
  simp only [staleness_alert] at hok ⊢
  cases havg : avg_cpu0 data with
  | error e =>
    cases htl : cpu_timeline_data data with
    | error e2 => rw [havg, htl] at hok; simp [isOkB] at hok
    | ok tl => rw [havg, htl] at hok; simp [isOkB] at hok
  | ok avg0 =>
    cases htl : cpu_timeline_data data with
    | error e2 => rw [havg, htl] at hok; simp [isOkB] at hok
    | ok tl =>
      show Except.ok _ = Except.ok _
      congr 1
      beta_reduce
      rw [List.filter_append, stale_filter_process_alerts]
      split_ifs
      · rfl
      · rfl

def itStale : Item :=
  { ip := "4.0.0.4", agent_id := .val "agent-c", cpu := .emptyDict
    processes := [], users := [], os_name := some "Linux"
    timestamp := 879, tsParses := true, received_at := .iso 879 }

unseal Rat.add Rat.sub Rat.mul Rat.inv in
/-- Witness for the amended claim C3: a single record received 121
seconds before `now` produces exactly one staleness warning stating 2
minutes. -/
theorem claim_C3_witness :
    (get_stats [itStale] 1000).map
        (fun st => st.alerts.filter (fun a => decide (a.icon = "⏰"))) =
      .ok [{ type := "warning", icon := "⏰", message := staleMsg 2 }] := by
  have h := claim_C3_amended [itStale] 1000 879 (by decide) (by decide)
  rw [h, if_pos (by norm_num : (120 : ℚ) < 1000 - 879)]
  have h2 : (⌊((1000 : ℚ) - 879) / 60⌋ : ℤ) = 2 := by
    rw [← ratFloor_floor]
    decide
  rw [h2]

def itRecent : Item :=
  { ip := "5.0.0.5", agent_id := .val "agent-d", cpu := .emptyDict
    processes := [], users := [], os_name := some "Linux"
    timestamp := 990, tsParses := true, received_at := .iso 990 }

def itOld : Item :=
  { ip := "5.0.0.5", agent_id := .val "agent-d", cpu := .emptyDict
    processes := [], users := [], os_name := some "Linux"
    timestamp := 800, tsParses := true, received_at := .iso 800 }

unseal Rat.add Rat.sub Rat.mul Rat.inv in
/-- Claim C3 (counterexample): the most recent record was received 10
seconds before `now` — within the 120-second bound, so the claim demands
no staleness alert — yet the endpoint, which looks only at the **last
record in storage order** (received 200 seconds before `now`), emits a
staleness warning stating 3 minutes. -/
theorem claim_C3_counterexample :
    itRecent.received_at = TimeStr.iso 990 ∧
    itOld.received_at = TimeStr.iso 800 ∧
    ((1000 : ℚ) - 990 ≤ 120) ∧
    (get_stats [itRecent, itOld] 1000).map
        (fun st => st.alerts.filter (fun a => decide (a.icon = "⏰"))) =
      .ok [{ type := "warning", icon := "⏰", message := staleMsg 3 }] := by
  refine ⟨rfl, rfl, by norm_num, by decide⟩

end SysMon
